import Mathlib

/-!
Shallow embedding of the JIT control core of the Dolphin emulator
(`Source/Core/PowerPC/JitCommon/JitBase.cpp`): configuration refresh,
code-generation option derivation, the merge-eligibility check, and the
BLR-optimization stack-guard state machine.  External collaborators
(configuration store, PowerPC state, breakpoint registry, block cache,
core timing, memory protection) are modelled as explicit inputs, and the
side effects on them as an event trace.  The POSIX (non `_WIN32`) build
of the stack-guard code is the one embedded, since the page-protection
path is the one the control flow of the source describes.
-/

namespace JitBase

/-- Code-generation option set (`JitOptions jo` in the source).  Only the
fields the control core reads or writes are modelled. -/
structure JitOptions where
  enableBlocklink : Bool
  fastmem_arena : Bool
  fastmem : Bool
  memcheck : Bool
  fp_exceptions : Bool
  div_by_zero_exceptions : Bool
  deriving Repr, DecidableEq

/-- The configuration store and system-state queries read by
`JitBase::RefreshConfig` (`Config::Get(...)`, `System::IsMMUMode`,
`System::IsPauseOnPanicMode`). -/
structure ConfigStore where
  main_enable_debugging : Bool
  main_float_exceptions : Bool
  main_divide_by_zero_exceptions : Bool
  main_low_dcbz_hack : Bool
  main_fprf : Bool
  main_accurate_nans : Bool
  main_fastmem : Bool
  main_accurate_cpu_cache : Bool
  main_jit_follow_branch : Bool
  is_mmu_mode : Bool
  is_pause_on_panic_mode : Bool
  deriving Repr, DecidableEq

/-- The mutable engine state of `JitBase` touched by the control core:
the configuration snapshot fields, the derived option set `jo`, the
analyzer enablement flags, and the stack-guard state
(`m_stack_guard` is `none` for the C++ null pointer). -/
structure JitState where
  m_enable_debugging : Bool
  m_enable_float_exceptions : Bool
  m_enable_div_by_zero_exceptions : Bool
  m_low_dcbz_hack : Bool
  m_fprf : Bool
  m_accurate_nans : Bool
  m_fastmem_enabled : Bool
  m_mmu_enabled : Bool
  m_pause_on_panic_enabled : Bool
  m_accurate_cpu_cache_enabled : Bool
  m_enable_blr_optimization : Bool
  m_cleanup_after_stackfault : Bool
  m_stack_guard : Option Nat
  analyzer_debugging_enabled : Bool
  analyzer_branch_following_enabled : Bool
  analyzer_float_exceptions_enabled : Bool
  analyzer_div_by_zero_exceptions_enabled : Bool
  jo : JitOptions
  deriving Repr, DecidableEq

/-- Observable side effects on the collaborators, recorded as a trace. -/
inductive Event where
  | warnLog
  | panicAlert
  | readProtectMemory (addr size : Nat)
  | unWriteProtectMemory (addr size : Nat)
  | invalidateICache (start len : Nat) (forced : Bool)
  | forceExceptionCheck (cycles : Int)
  | clearCache
  deriving Repr, DecidableEq

/-- `JitBase::RefreshConfig`: reads the configuration store and the
system-state queries into the snapshot fields; accurate-CPU-cache mode
forces `m_fastmem_enabled` and `m_low_dcbz_hack` off; finally the
analyzer enablement flags are updated from the snapshot just taken. -/
def RefreshConfig (cfg : ConfigStore) (s : JitState) : JitState :=
  let fastmem0 := cfg.main_fastmem
  let dcbz0 := cfg.main_low_dcbz_hack
  let acc := cfg.main_accurate_cpu_cache
  { s with
    m_enable_debugging := cfg.main_enable_debugging
    m_enable_float_exceptions := cfg.main_float_exceptions
    m_enable_div_by_zero_exceptions := cfg.main_divide_by_zero_exceptions
    m_low_dcbz_hack := if acc then false else dcbz0
    m_fprf := cfg.main_fprf
    m_accurate_nans := cfg.main_accurate_nans
    m_fastmem_enabled := if acc then false else fastmem0
    m_mmu_enabled := cfg.is_mmu_mode
    m_pause_on_panic_enabled := cfg.is_pause_on_panic_mode
    m_accurate_cpu_cache_enabled := acc
    analyzer_debugging_enabled := cfg.main_enable_debugging
    analyzer_branch_following_enabled := cfg.main_jit_follow_branch
    analyzer_float_exceptions_enabled := cfg.main_float_exceptions
    analyzer_div_by_zero_exceptions_enabled := cfg.main_divide_by_zero_exceptions }

/-- `JitBase::UpdateMemoryAndExceptionOptions`.  `any_watchpoints` is
`PowerPC::memchecks.HasAny()`; `msr_DR` is `PowerPC::ppcState.msr.DR`,
the MSR data-relocate bit, which is set exactly when guest data address
translation is enabled. -/
def UpdateMemoryAndExceptionOptions (any_watchpoints msr_DR : Bool)
    (s : JitState) : JitState :=
  { s with jo := { s.jo with
      fastmem := s.m_fastmem_enabled && s.jo.fastmem_arena &&
        (msr_DR || !any_watchpoints)
      memcheck := s.m_mmu_enabled || s.m_pause_on_panic_enabled || any_watchpoints
      fp_exceptions := s.m_enable_float_exceptions
      div_by_zero_exceptions := s.m_enable_div_by_zero_exceptions } }

/-- The static per-instruction flag bits `JitBase` reads from
`op->opinfo->flags`: `FL_FLOAT_EXCEPTION` and `FL_FLOAT_DIV`, each
modelled as the boolean result of the corresponding mask test. -/
structure CodeOp where
  address : Nat
  isBranchTarget : Bool
  flag_float_exception : Bool
  flag_float_div : Bool
  deriving Repr, DecidableEq

/-- `JitBase::ShouldHandleFPExceptionForInstruction`. -/
def ShouldHandleFPExceptionForInstruction (jo : JitOptions) (op : CodeOp) : Bool :=
  if jo.fp_exceptions then
    op.flag_float_exception
  else if jo.div_by_zero_exceptions then
    op.flag_float_div
  else
    false

/-- The inputs `JitBase::CanMergeNextInstructions` reads: the CPU
single-step query (`system.GetCPU().IsStepping()`), the decoded window
(`js.instructionsLeft`, `js.op[i]`), the debugging flag, and the
breakpoint registry (`PowerPC::breakpoints.IsAddressBreakPoint`). -/
structure MergeWindow where
  isStepping : Bool
  instructionsLeft : Int
  m_enable_debugging : Bool
  isAddressBreakPoint : Nat → Bool
  op : Nat → CodeOp

/-- `JitBase::CanMergeNextInstructions`: the `for (int i = 1; i <= count; i++)`
loop of early `return false`s, as a conjunction over `i = 1 .. count`. -/
def CanMergeNextInstructions (w : MergeWindow) (count : Nat) : Bool :=
  if w.isStepping || w.instructionsLeft < (count : Int) then
    false
  else
    (List.range count).all fun j =>
      !(w.m_enable_debugging && w.isAddressBreakPoint (w.op (j + 1)).address) &&
        !(w.op (j + 1)).isBranchTarget

/-- The compile-time stack-guard constants declared in `JitBase.h`
(`GUARD_OFFSET`, `GUARD_SIZE`, `MIN_UNSAFE_STACK_SIZE`), kept abstract
since the control flow never depends on their values. -/
structure StackConsts where
  GUARD_OFFSET : Nat
  GUARD_SIZE : Nat
  MIN_UNSAFE_STACK_SIZE : Nat
  deriving Repr, DecidableEq

/-- The per-call environment `JitBase::ProtectStack` queries: the native
stack bounds from `Common::GetCurrentThreadStack()`, the address of a
local variable (`&stack_addr`, the "middle of stack" probe), and the
`sysconf(_SC_PAGESIZE)` result, which is negative on failure. -/
structure StackEnv where
  stack_base_addr : Nat
  stack_size : Nat
  stack_middle_addr : Nat
  page_size : Int
  deriving Repr, DecidableEq

/-- `Common::AlignUp` on addresses: round `x` up to a multiple of `n`. -/
def alignUp (x n : Nat) : Nat :=
  (x + n - 1) / n * n

/-- `JitBase::ProtectStack` (POSIX path): early return when the
optimization is not armed; the three environment-integrity checks each
report one fatal diagnostic and disable the optimization; on success the
guard address is recorded and the guard region read-protected. -/
def ProtectStack (c : StackConsts) (env : StackEnv) (s : JitState) :
    JitState × List Event :=
  if !s.m_enable_blr_optimization then
    (s, [])
  else if env.stack_middle_addr < env.stack_base_addr ||
      env.stack_middle_addr ≥ env.stack_base_addr + env.stack_size then
    ({ s with m_enable_blr_optimization := false }, [.panicAlert])
  else if env.page_size ≤ 0 then
    ({ s with m_enable_blr_optimization := false }, [.panicAlert])
  else
    let stack_guard_addr :=
      alignUp (env.stack_base_addr + c.GUARD_OFFSET) env.page_size.toNat
    if stack_guard_addr ≥ env.stack_middle_addr ||
        env.stack_middle_addr - stack_guard_addr <
          c.GUARD_SIZE + c.MIN_UNSAFE_STACK_SIZE then
      ({ s with m_enable_blr_optimization := false }, [.panicAlert])
    else
      ({ s with m_stack_guard := some stack_guard_addr },
        [.readProtectMemory stack_guard_addr c.GUARD_SIZE])

/-- `JitBase::UnprotectStack` (POSIX path): if the guard pointer is set,
un-write-protect the guard region and clear the pointer; otherwise do
nothing. -/
def UnprotectStack (c : StackConsts) (s : JitState) : JitState × List Event :=
  match s.m_stack_guard with
  | some g => ({ s with m_stack_guard := none }, [.unWriteProtectMemory g c.GUARD_SIZE])
  | none => (s, [])

/-- `JitBase::InitBLROptimization`. -/
def InitBLROptimization (s : JitState) : JitState :=
  { s with
    m_enable_blr_optimization :=
      s.jo.enableBlocklink && s.m_fastmem_enabled && !s.m_enable_debugging
    m_cleanup_after_stackfault := false }

/-- `JitBase::HandleStackFault`.  `isCPUThread` is `Core::IsCPUThread()`. -/
def HandleStackFault (c : StackConsts) (isCPUThread : Bool) (s : JitState) :
    Bool × JitState × List Event :=
  if !s.m_enable_blr_optimization || !isCPUThread then
    (false, s, [])
  else
    let (s1, e1) := UnprotectStack c s
    let s2 := { s1 with m_enable_blr_optimization := false }
    let s3 := { s2 with m_cleanup_after_stackfault := true }
    (true, s3,
      Event.warnLog :: e1 ++
        [.invalidateICache 0 0xffffffff true, .forceExceptionCheck 0])

/-- `JitBase::CleanUpAfterStackFault` (POSIX path: no `_resetstkoflw`). -/
def CleanUpAfterStackFault (s : JitState) : JitState × List Event :=
  if s.m_cleanup_after_stackfault then
    ({ s with m_cleanup_after_stackfault := false }, [.clearCache])
  else
    (s, [])

/-- One call into the control core within a session, i.e. between two
`InitBLROptimization` calls (the only entry point that can set
`m_enable_blr_optimization` back to true). -/
inductive SessionOp where
  | protectStack (env : StackEnv)
  | unprotectStack
  | handleStackFault (isCPUThread : Bool)
  | cleanUpAfterStackFault
  | updateOptions (any_watchpoints msr_DR : Bool)
  | refreshConfig (cfg : ConfigStore)

/-- State reached after one session operation (effect trace dropped). -/
def sessionStep (c : StackConsts) (s : JitState) : SessionOp → JitState
  | .protectStack env => (ProtectStack c env s).1
  | .unprotectStack => (UnprotectStack c s).1
  | .handleStackFault cpu => (HandleStackFault c cpu s).2.1
  | .cleanUpAfterStackFault => (CleanUpAfterStackFault s).1
  | .updateOptions wp dr => UpdateMemoryAndExceptionOptions wp dr s
  | .refreshConfig cfg => RefreshConfig cfg s

/-- State reached after a sequence of session operations. -/
def runSession (c : StackConsts) (s : JitState) : List SessionOp → JitState
  | [] => s
  | op :: ops => runSession c (sessionStep c s op) ops

/-- A concrete configuration store with everything off, used to build
concrete inputs for witnesses and counterexamples. -/
def cfg0 : ConfigStore :=
  { main_enable_debugging := false
    main_float_exceptions := false
    main_divide_by_zero_exceptions := false
    main_low_dcbz_hack := false
    main_fprf := false
    main_accurate_nans := false
    main_fastmem := false
    main_accurate_cpu_cache := false
    main_jit_follow_branch := false
    is_mmu_mode := false
    is_pause_on_panic_mode := false }

/-- A concrete option set with everything off. -/
def jo0 : JitOptions :=
  { enableBlocklink := false
    fastmem_arena := false
    fastmem := false
    memcheck := false
    fp_exceptions := false
    div_by_zero_exceptions := false }

/-- A concrete engine state with everything off and no guard armed. -/
def state0 : JitState :=
  { m_enable_debugging := false
    m_enable_float_exceptions := false
    m_enable_div_by_zero_exceptions := false
    m_low_dcbz_hack := false
    m_fprf := false
    m_accurate_nans := false
    m_fastmem_enabled := false
    m_mmu_enabled := false
    m_pause_on_panic_enabled := false
    m_accurate_cpu_cache_enabled := false
    m_enable_blr_optimization := false
    m_cleanup_after_stackfault := false
    m_stack_guard := none
    analyzer_debugging_enabled := false
    analyzer_branch_following_enabled := false
    analyzer_float_exceptions_enabled := false
    analyzer_div_by_zero_exceptions_enabled := false
    jo := jo0 }

/-- Concrete stack-guard constants for witnesses (the values never
matter to the control flow). -/
def consts0 : StackConsts :=
  { GUARD_OFFSET := 131072, GUARD_SIZE := 65536, MIN_UNSAFE_STACK_SIZE := 196608 }

/-- A concrete state with the BLR optimization armed and a guard page
protected at address 4096. -/
def stateArmed : JitState :=
  { state0 with m_enable_blr_optimization := true, m_stack_guard := some 4096 }

/-- The fastmem-generation rule as the spec words it: configured-fastmem
AND arena-available AND (address-translation-disabled OR no-watchpoints).
Guest data address translation is disabled exactly when the MSR
data-relocate bit `msr_DR` is clear, so translation-disabled is `!msr_DR`. -/
def claimedFastmemGeneration (fastmem_configured arena_available
    any_watchpoints msr_DR : Bool) : Bool :=
  fastmem_configured && arena_available && (!msr_DR || !any_watchpoints)

/-- The fastmem-generation rule actually computed by the source:
configured-fastmem AND arena-available AND (address-translation-ENABLED
OR no-watchpoints), since the source tests `msr.DR` itself. -/
def amendedFastmemGeneration (fastmem_configured arena_available
    any_watchpoints msr_DR : Bool) : Bool :=
  fastmem_configured && arena_available && (msr_DR || !any_watchpoints)

/-- C1 counterexample: with fastmem configured, the arena available,
watchpoints present and address translation ENABLED (`msr_DR = true`,
so translation-disabled is false), the code generates fastmem even
though the claimed rule (translation-disabled OR no-watchpoints) says
it must not: the claimed equality fails at this concrete input. -/
theorem updateOptions_fastmem_counterexample :
    ¬ ((UpdateMemoryAndExceptionOptions true true
          { state0 with m_fastmem_enabled := true,
                        jo := { jo0 with fastmem_arena := true } }).jo.fastmem =
        claimedFastmemGeneration true true true true) := by
  decide

/-- C1 (amended): for every input state, `UpdateMemoryAndExceptionOptions`
sets fastmem-generation to configured-fastmem AND arena-available AND
(address-translation-ENABLED OR no-watchpoints); memcheck-generation to
MMU-mode OR pause-on-panic-mode OR any-watchpoints; fp-exception-generation
to the configured float-exception fidelity; and div-by-zero-generation to
the configured divide fidelity. -/
theorem updateOptions_spec (s : JitState) (any_watchpoints msr_DR : Bool) :
    (UpdateMemoryAndExceptionOptions any_watchpoints msr_DR s).jo.fastmem =
        amendedFastmemGeneration s.m_fastmem_enabled s.jo.fastmem_arena
          any_watchpoints msr_DR ∧
      (UpdateMemoryAndExceptionOptions any_watchpoints msr_DR s).jo.memcheck =
        (s.m_mmu_enabled || s.m_pause_on_panic_enabled || any_watchpoints) ∧
      (UpdateMemoryAndExceptionOptions any_watchpoints msr_DR s).jo.fp_exceptions =
        s.m_enable_float_exceptions ∧
      (UpdateMemoryAndExceptionOptions any_watchpoints msr_DR s).jo.div_by_zero_exceptions =
        s.m_enable_div_by_zero_exceptions := by
  refine ⟨rfl, rfl, rfl, rfl⟩

/-- C2: `CanMergeNextInstructions` returns true exactly when single-step
mode is off, at least `count` instructions remain decoded, and none of
instructions `1 .. count` is a branch target nor — when debugging is
enabled — at a registered breakpoint address. -/
theorem canMergeNextInstructions_spec (w : MergeWindow) (count : Nat) :
    CanMergeNextInstructions w count = true ↔
      w.isStepping = false ∧ (count : Int) ≤ w.instructionsLeft ∧
        ∀ i, 1 ≤ i → i ≤ count →
          (w.op i).isBranchTarget = false ∧
            (w.m_enable_debugging = true →
              w.isAddressBreakPoint (w.op i).address = false) := by
  unfold CanMergeNextInstructions
  by_cases hs : w.isStepping
  · simp [hs]
  · by_cases hl : w.instructionsLeft < (count : Int)
    · simp [hs, hl]
    · simp [hs, hl, List.all_eq_true, List.mem_range, not_lt.mp hl]
      constructor
      · intro h i h1 hi
        have hj : i - 1 < count := by omega
        have hx := h (i - 1) hj
        have hi1 : i - 1 + 1 = i := by omega
        rw [hi1] at hx
        refine ⟨hx.2, ?_⟩
        intro hd
        rcases hx.1 with he | he
        · simp [hd] at he
        · exact he
      · intro h j hj
        have hx := h (j + 1) (by omega) (by omega)
        refine ⟨?_, hx.1⟩
        by_cases hd : w.m_enable_debugging = true
        · exact Or.inr (hx.2 hd)
        · exact Or.inl (by simpa using hd)

/-- C3: a configuration refresh taken with accurate-data-cache enabled
forces the snapshot's fastmem and low-DCBZ-hack flags off, and every
subsequent option derivation yields fastmem-generation = false,
regardless of all other inputs. -/
theorem refreshConfig_accurate_cache_spec (cfg : ConfigStore) (s : JitState)
    (h : cfg.main_accurate_cpu_cache = true) :
    (RefreshConfig cfg s).m_fastmem_enabled = false ∧
      (RefreshConfig cfg s).m_low_dcbz_hack = false ∧
      ∀ any_watchpoints msr_DR,
        (UpdateMemoryAndExceptionOptions any_watchpoints msr_DR
          (RefreshConfig cfg s)).jo.fastmem = false := by
  unfold RefreshConfig UpdateMemoryAndExceptionOptions
  simp [h]

/-- C3 witness: the theorem applied at a concrete accurate-cache
configuration. -/
theorem refreshConfig_accurate_cache_spec_witness :
    (RefreshConfig { cfg0 with main_accurate_cpu_cache := true }
        state0).m_fastmem_enabled = false ∧
      (RefreshConfig { cfg0 with main_accurate_cpu_cache := true }
          state0).m_low_dcbz_hack = false ∧
      ∀ any_watchpoints msr_DR,
        (UpdateMemoryAndExceptionOptions any_watchpoints msr_DR
          (RefreshConfig { cfg0 with main_accurate_cpu_cache := true }
            state0)).jo.fastmem = false :=
  refreshConfig_accurate_cache_spec { cfg0 with main_accurate_cpu_cache := true }
    state0 rfl

/-- C6: `ShouldHandleFPExceptionForInstruction` returns true iff
fp-exception-generation is set and the instruction is float-exception
capable, else iff div-by-zero-generation is set and the instruction is a
floating-point divide, else false; in particular a float-exception
capable non-divide instruction yields true with float fidelity on and
divide fidelity off, and false with both fidelities off. -/
theorem shouldHandleFP_spec :
    (∀ (jo : JitOptions) (op : CodeOp),
        ShouldHandleFPExceptionForInstruction jo op = true ↔
          (jo.fp_exceptions = true ∧ op.flag_float_exception = true) ∨
            (jo.fp_exceptions = false ∧ jo.div_by_zero_exceptions = true ∧
              op.flag_float_div = true)) ∧
      ∀ (jo : JitOptions) (op : CodeOp),
        op.flag_float_exception = true → op.flag_float_div = false →
          ShouldHandleFPExceptionForInstruction
              { jo with fp_exceptions := true, div_by_zero_exceptions := false }
              op = true ∧
            ShouldHandleFPExceptionForInstruction
              { jo with fp_exceptions := false, div_by_zero_exceptions := false }
              op = false := by
  constructor
  · intro jo op
    rcases jo with ⟨bl, fa, fm, mc, fpe, dbz⟩
    unfold ShouldHandleFPExceptionForInstruction
    cases fpe <;> cases dbz <;> simp
  · intro jo op h1 h2
    unfold ShouldHandleFPExceptionForInstruction
    simp [h1, h2]

/-- C6 witness: the characterization and the scenario evaluated at a
concrete float-exception-capable, non-divide instruction. -/
theorem shouldHandleFP_spec_witness :
    (ShouldHandleFPExceptionForInstruction jo0
        { address := 0, isBranchTarget := false,
          flag_float_exception := true, flag_float_div := false } = true ↔
        (jo0.fp_exceptions = true ∧ true = true) ∨
          (jo0.fp_exceptions = false ∧ jo0.div_by_zero_exceptions = true ∧
            false = true)) ∧
      ShouldHandleFPExceptionForInstruction
          { jo0 with fp_exceptions := true, div_by_zero_exceptions := false }
          { address := 0, isBranchTarget := false,
            flag_float_exception := true, flag_float_div := false } = true ∧
        ShouldHandleFPExceptionForInstruction
          { jo0 with fp_exceptions := false, div_by_zero_exceptions := false }
          { address := 0, isBranchTarget := false,
            flag_float_exception := true, flag_float_div := false } = false :=
  ⟨shouldHandleFP_spec.1 jo0
      { address := 0, isBranchTarget := false,
        flag_float_exception := true, flag_float_div := false },
    shouldHandleFP_spec.2 jo0
      { address := 0, isBranchTarget := false,
        flag_float_exception := true, flag_float_div := false } rfl rfl⟩

/-- C4: a stack fault delivered with the optimization armed on the CPU
thread is handled: the call returns true, clears the guard pointer
(un-write-protecting the guard region when one was protected), sets the
optimization-enabled flag to false, emits exactly the warning log, the
whole-cache invalidation and the immediate downcount expiry, and marks
the deferred cleanup pending. -/
theorem handleStackFault_handled_spec (c : StackConsts) (s : JitState)
    (h : s.m_enable_blr_optimization = true) :
    HandleStackFault c true s =
      (true,
        { s with m_stack_guard := none, m_enable_blr_optimization := false,
                 m_cleanup_after_stackfault := true },
        Event.warnLog ::
          (match s.m_stack_guard with
            | some g => [Event.unWriteProtectMemory g c.GUARD_SIZE]
            | none => []) ++
          [Event.invalidateICache 0 0xffffffff true, Event.forceExceptionCheck 0]) := by
  unfold HandleStackFault UnprotectStack
  cases hg : s.m_stack_guard <;> simp [h, hg]

/-- C4 witness: the theorem applied at a concrete armed state with a
protected guard page. -/
theorem handleStackFault_handled_spec_witness :
    HandleStackFault consts0 true stateArmed =
      (true,
        { stateArmed with m_stack_guard := none,
                          m_enable_blr_optimization := false,
                          m_cleanup_after_stackfault := true },
        [Event.warnLog, Event.unWriteProtectMemory 4096 consts0.GUARD_SIZE,
          Event.invalidateICache 0 0xffffffff true, Event.forceExceptionCheck 0]) := by
  simpa using handleStackFault_handled_spec consts0 stateArmed rfl

/-- Each session operation preserves a disabled BLR optimization: no
entry point of the core except `InitBLROptimization` ever sets
`m_enable_blr_optimization` back to true. -/
theorem sessionStep_preserves_disabled (c : StackConsts) (s : JitState)
    (op : SessionOp) (h : s.m_enable_blr_optimization = false) :
    (sessionStep c s op).m_enable_blr_optimization = false := by
  cases op with
  | protectStack env =>
    show (ProtectStack c env s).1.m_enable_blr_optimization = false
    simp [ProtectStack, h]
  | unprotectStack =>
    show (UnprotectStack c s).1.m_enable_blr_optimization = false
    cases hg : s.m_stack_guard <;> simp [UnprotectStack, hg, h]
  | handleStackFault cpu =>
    show (HandleStackFault c cpu s).2.1.m_enable_blr_optimization = false
    simp [HandleStackFault, h]
  | cleanUpAfterStackFault =>
    show (CleanUpAfterStackFault s).1.m_enable_blr_optimization = false
    unfold CleanUpAfterStackFault
    split <;> simp [h]
  | updateOptions wp dr =>
    show (UpdateMemoryAndExceptionOptions wp dr s).m_enable_blr_optimization = false
    simpa [UpdateMemoryAndExceptionOptions] using h
  | refreshConfig cfg =>
    show (RefreshConfig cfg s).m_enable_blr_optimization = false
    simpa [RefreshConfig] using h

/-- A disabled BLR optimization stays disabled across any sequence of
session operations. -/
theorem runSession_preserves_disabled (c : StackConsts) (s : JitState)
    (ops : List SessionOp) (h : s.m_enable_blr_optimization = false) :
    (runSession c s ops).m_enable_blr_optimization = false := by
  induction ops generalizing s with
  | nil => exact h
  | cons op ops ih =>
    exact ih (sessionStep c s op) (sessionStep_preserves_disabled c s op h)

/-- C5: `HandleStackFault` declines — returns false with the state
unchanged and no effect — whenever the optimization is not armed or the
caller is not the CPU thread; a second fault after a handled one
declines the same way; and once disabled the optimization is never
re-armed by any sequence of session operations. -/
theorem handleStackFault_decline_spec (c : StackConsts) :
    (∀ (s : JitState) (cpu : Bool),
        ¬(s.m_enable_blr_optimization = true ∧ cpu = true) →
          HandleStackFault c cpu s = (false, s, [])) ∧
      (∀ s : JitState, s.m_enable_blr_optimization = true →
        HandleStackFault c true ((HandleStackFault c true s).2.1) =
          (false, (HandleStackFault c true s).2.1, [])) ∧
      ∀ (s : JitState) (ops : List SessionOp),
        s.m_enable_blr_optimization = false →
          (runSession c s ops).m_enable_blr_optimization = false := by
  have decline : ∀ (s : JitState) (cpu : Bool),
      ¬(s.m_enable_blr_optimization = true ∧ cpu = true) →
        HandleStackFault c cpu s = (false, s, []) := by
    intro s cpu h
    unfold HandleStackFault
    by_cases hb : s.m_enable_blr_optimization = true
    · by_cases hc : cpu = true
      · exact absurd ⟨hb, hc⟩ h
      · simp [hb, Bool.eq_false_iff.mpr hc]
    · simp [Bool.eq_false_iff.mpr hb]
  refine ⟨decline, ?_, runSession_preserves_disabled c⟩
  intro s h
  apply decline
  intro hcontra
  have : ((HandleStackFault c true s).2.1).m_enable_blr_optimization = false := by
    unfold HandleStackFault UnprotectStack
    cases s.m_stack_guard <;> simp [h]
  rw [this] at hcontra
  exact absurd hcontra.1 (by simp)

/-- C5 witness: the three parts applied at concrete inputs — a disarmed
state on a non-CPU thread, a second fault after a handled one, and a
session run from a disabled state. -/
theorem handleStackFault_decline_spec_witness :
    HandleStackFault consts0 false state0 = (false, state0, []) ∧
      HandleStackFault consts0 true ((HandleStackFault consts0 true stateArmed).2.1) =
        (false, (HandleStackFault consts0 true stateArmed).2.1, []) ∧
      (runSession consts0 state0
          [SessionOp.handleStackFault true, SessionOp.cleanUpAfterStackFault,
            SessionOp.unprotectStack]).m_enable_blr_optimization = false :=
  ⟨(handleStackFault_decline_spec consts0).1 state0 false (by simp [state0]),
    (handleStackFault_decline_spec consts0).2.1 stateArmed rfl,
    (handleStackFault_decline_spec consts0).2.2 state0
      [SessionOp.handleStackFault true, SessionOp.cleanUpAfterStackFault,
        SessionOp.unprotectStack] rfl⟩

/-- Stack-guard constants that make the safety-margin boundary small and
explicit. -/
def constsTight : StackConsts :=
  { GUARD_OFFSET := 0, GUARD_SIZE := 16, MIN_UNSAFE_STACK_SIZE := 32 }

/-- A stack environment where all bounds checks pass and the remaining
stack between the guard point and the stack pointer equals the guard-page
size plus the minimum-safe-unprotected size exactly. -/
def envBoundary : StackEnv :=
  { stack_base_addr := 0, stack_size := 1000, stack_middle_addr := 48, page_size := 1 }

/-- A stack environment whose middle-of-stack probe lies below the
reported stack base: bounds check (a) fails. -/
def envBadBase : StackEnv :=
  { stack_base_addr := 100, stack_size := 50, stack_middle_addr := 10, page_size := 1 }

/-- C7 counterexample: when the remaining stack between the guard point
and the stack pointer equals (so "does not exceed") the guard-page size
plus the minimum-safe-unprotected size, the claim demands a fatal
diagnostic, a disabled optimization and no protection — but the source
only fails on a strictly smaller margin, so here it protects the guard
region, keeps the optimization enabled and reports nothing. -/
theorem protectStack_boundary_counterexample :
    stateArmed.m_enable_blr_optimization = true ∧
      envBoundary.stack_middle_addr -
          alignUp (envBoundary.stack_base_addr + constsTight.GUARD_OFFSET)
            envBoundary.page_size.toNat ≤
        constsTight.GUARD_SIZE + constsTight.MIN_UNSAFE_STACK_SIZE ∧
      (ProtectStack constsTight envBoundary stateArmed).1.m_enable_blr_optimization =
        true ∧
      (ProtectStack constsTight envBoundary stateArmed).2 =
        [Event.readProtectMemory 0 16] := by
  decide

/-- C7 (amended): with the optimization armed, whenever a check fails —
the middle-of-stack probe outside the stack bounds, a non-positive page
size, or (with a positive page size) a remaining stack between guard
point and stack pointer STRICTLY smaller than the guard-page size plus
the minimum-safe-unprotected size (including the guard point at or above
the stack pointer) — `ProtectStack` reports exactly one fatal
diagnostic, disables the optimization and protects nothing. -/
theorem protectStack_integrity_failure_spec (c : StackConsts) (env : StackEnv)
    (s : JitState) (h : s.m_enable_blr_optimization = true)
    (hfail : env.stack_middle_addr < env.stack_base_addr ∨
      env.stack_base_addr + env.stack_size ≤ env.stack_middle_addr ∨
      env.page_size ≤ 0 ∨
      (0 < env.page_size ∧
        (env.stack_middle_addr ≤
            alignUp (env.stack_base_addr + c.GUARD_OFFSET) env.page_size.toNat ∨
          env.stack_middle_addr -
              alignUp (env.stack_base_addr + c.GUARD_OFFSET) env.page_size.toNat <
            c.GUARD_SIZE + c.MIN_UNSAFE_STACK_SIZE))) :
    ProtectStack c env s =
      ({ s with m_enable_blr_optimization := false }, [Event.panicAlert]) := by
  unfold ProtectStack
  rw [h]
  simp only [Bool.not_true, Bool.false_eq_true, if_false]
  split
  · rfl
  · next hc1 =>
    split
    · rfl
    · next hc2 =>
      split
      · rfl
      · next hc3 =>
        exfalso
        simp only [Bool.or_eq_true, decide_eq_true_eq, not_or, ge_iff_le,
          not_le, not_lt] at hc1 hc2 hc3
        rcases hfail with h1 | h1 | h1 | ⟨hpos, h1 | h1⟩ <;> omega

/-- C7 witness: the amended theorem applied at a concrete environment
whose middle-of-stack probe lies below the reported stack base. -/
theorem protectStack_integrity_failure_spec_witness :
    ProtectStack constsTight envBadBase stateArmed =
      ({ stateArmed with m_enable_blr_optimization := false },
        [Event.panicAlert]) :=
  protectStack_integrity_failure_spec constsTight envBadBase stateArmed rfl
    (Or.inl (by decide))

/-- C8: `UnprotectStack` is idempotent — a second call leaves the state
of the first call unchanged and performs no memory-protection change,
because the first call cleared the guard pointer. -/
theorem unprotectStack_idempotent (c : StackConsts) (s : JitState) :
    (UnprotectStack c (UnprotectStack c s).1).1 = (UnprotectStack c s).1 ∧
      (UnprotectStack c (UnprotectStack c s).1).2 = [] := by
  cases hg : s.m_stack_guard <;> simp [UnprotectStack, hg]

/-- C9: after a configuration refresh with accurate-data-cache enabled,
`InitBLROptimization` leaves the BLR optimization disabled regardless of
the block-linking, fastmem and debugging settings, and `ProtectStack`
then returns immediately, arming no guard region. -/
theorem accurate_cache_disables_blr (cfg : ConfigStore) (s : JitState)
    (c : StackConsts) (env : StackEnv)
    (h : cfg.main_accurate_cpu_cache = true) :
    (InitBLROptimization (RefreshConfig cfg s)).m_enable_blr_optimization = false ∧
      ProtectStack c env (InitBLROptimization (RefreshConfig cfg s)) =
        (InitBLROptimization (RefreshConfig cfg s), []) := by
  have h1 : (InitBLROptimization (RefreshConfig cfg s)).m_enable_blr_optimization
      = false := by
    unfold InitBLROptimization RefreshConfig
    simp [h]
  exact ⟨h1, by unfold ProtectStack; simp [h1]⟩

/-- A concrete configuration with accurate-data-cache enabled. -/
def cfgAccurate : ConfigStore := { cfg0 with main_accurate_cpu_cache := true }

/-- A concrete state with block-linking requested by the option set. -/
def stateBlocklink : JitState :=
  { state0 with jo := { jo0 with enableBlocklink := true } }

/-- C9 witness: the theorem applied at a concrete accurate-cache
configuration, starting from a state that would otherwise arm. -/
theorem accurate_cache_disables_blr_witness :
    (InitBLROptimization
        (RefreshConfig cfgAccurate stateBlocklink)).m_enable_blr_optimization =
        false ∧
      ProtectStack constsTight envBoundary
          (InitBLROptimization (RefreshConfig cfgAccurate stateBlocklink)) =
        (InitBLROptimization (RefreshConfig cfgAccurate stateBlocklink), []) :=
  accurate_cache_disables_blr cfgAccurate stateBlocklink constsTight envBoundary rfl

/-- C10: `CleanUpAfterStackFault` is a no-op when the cleanup-pending
flag is false; when it runs it clears the flag and clears the cache; it
is idempotent (the second of two consecutive calls is a no-op); and
after a handled stack fault the deferred cache clear executes exactly
once. -/
theorem cleanUpAfterStackFault_spec :
    (∀ s : JitState, s.m_cleanup_after_stackfault = false →
        CleanUpAfterStackFault s = (s, [])) ∧
      (∀ s : JitState, s.m_cleanup_after_stackfault = true →
        (CleanUpAfterStackFault s).1.m_cleanup_after_stackfault = false ∧
          (CleanUpAfterStackFault s).2 = [Event.clearCache]) ∧
      (∀ s : JitState,
        CleanUpAfterStackFault (CleanUpAfterStackFault s).1 =
          ((CleanUpAfterStackFault s).1, [])) ∧
      ∀ (c : StackConsts) (s : JitState),
        (HandleStackFault c true s).1 = true →
          (CleanUpAfterStackFault (HandleStackFault c true s).2.1).2 =
              [Event.clearCache] ∧
            (CleanUpAfterStackFault
                (CleanUpAfterStackFault (HandleStackFault c true s).2.1).1).2 = [] := by
  have noop : ∀ s : JitState, s.m_cleanup_after_stackfault = false →
      CleanUpAfterStackFault s = (s, []) := by
    intro s h
    unfold CleanUpAfterStackFault
    simp [h]
  have runs : ∀ s : JitState, s.m_cleanup_after_stackfault = true →
      (CleanUpAfterStackFault s).1.m_cleanup_after_stackfault = false ∧
        (CleanUpAfterStackFault s).2 = [Event.clearCache] := by
    intro s h
    unfold CleanUpAfterStackFault
    simp [h]
  have idem : ∀ s : JitState,
      CleanUpAfterStackFault (CleanUpAfterStackFault s).1 =
        ((CleanUpAfterStackFault s).1, []) := by
    intro s
    by_cases h : s.m_cleanup_after_stackfault = true
    · exact noop _ (runs s h).1
    · have h0 : s.m_cleanup_after_stackfault = false := Bool.eq_false_iff.mpr h
      rw [noop s h0]
      exact noop s h0
  refine ⟨noop, runs, idem, ?_⟩
  intro c s h
  have hpend : ((HandleStackFault c true s).2.1).m_cleanup_after_stackfault = true := by
    revert h
    unfold HandleStackFault UnprotectStack
    by_cases hb : s.m_enable_blr_optimization = true
    · cases s.m_stack_guard <;> simp [hb]
    · simp [Bool.eq_false_iff.mpr hb]
  refine ⟨(runs _ hpend).2, ?_⟩
  rw [idem ((HandleStackFault c true s).2.1)]

/-- C10 witness: a no-op on a clean state, and the exactly-once deferred
clear after a handled fault, at concrete inputs. -/
theorem cleanUpAfterStackFault_spec_witness :
    CleanUpAfterStackFault state0 = (state0, []) ∧
      (CleanUpAfterStackFault (HandleStackFault consts0 true stateArmed).2.1).2 =
          [Event.clearCache] ∧
        (CleanUpAfterStackFault
            (CleanUpAfterStackFault
              (HandleStackFault consts0 true stateArmed).2.1).1).2 = [] :=
  ⟨cleanUpAfterStackFault_spec.1 state0 rfl,
    cleanUpAfterStackFault_spec.2.2.2 consts0 stateArmed (by decide)⟩

end JitBase
